import Mathlib

/-!
Verification development for the LME copper price analysis pipeline
(`lme_cu_analysis1.py`): a shallow embedding of the cleaning stage, the
five analytics functions and the report writer, together with theorems
settling the specified properties.

Conventions of the embedding:
* Python floats are modelled as exact rationals (`ℚ`); quantities that
  genuinely need a square root (standard deviations, the p-value) live
  in `ℝ`.
* Python `round(x, n)` (and `numpy`/`pandas` `.round(n)`) use
  round-half-to-even; `roundHalfEven` reproduces that.
* A pandas dataframe row after column standardisation is a pair of
  parse results (`Option Date`, `Option ℚ`): `None` models
  `NaT`/`NaN` produced by `errors='coerce'`.
-/

namespace LMECu

/-- A calendar date as carried by the `Date` column (`pd.to_datetime`
yields a concrete date; validity of day/month is the parser's business,
so the structure itself is unconstrained). -/
structure Date where
  year : Nat
  month : Nat
  day : Nat
deriving DecidableEq, Repr

/-- Chronological order on dates (lexicographic year, month, day),
as used by `sort_values('Date')` and by `min`/`max` over the column. -/
def Date.le (a b : Date) : Prop :=
  a.year < b.year ∨
    (a.year = b.year ∧
      (a.month < b.month ∨ (a.month = b.month ∧ a.day ≤ b.day)))

/-- Strict chronological order on dates. -/
def Date.lt (a b : Date) : Prop :=
  a.year < b.year ∨
    (a.year = b.year ∧
      (a.month < b.month ∨ (a.month = b.month ∧ a.day < b.day)))

instance : DecidableRel Date.le := fun a b => by
  unfold Date.le; infer_instance

instance : DecidableRel Date.lt := fun a b => by
  unfold Date.lt; infer_instance

instance : IsTotal Date Date.le :=
  ⟨fun a b => by unfold Date.le; omega⟩

instance : IsTrans Date Date.le :=
  ⟨fun a b c hab hbc => by unfold Date.le at *; omega⟩

/-- Round-half-to-even to an integer, the rounding used by Python's
built-in `round` and by `numpy`/`pandas` `.round`. -/
def roundHalfEven (x : ℚ) : ℤ :=
  if x - ⌊x⌋ < 1/2 then ⌊x⌋
  else if 1/2 < x - ⌊x⌋ then ⌊x⌋ + 1
  else if 2 ∣ ⌊x⌋ then ⌊x⌋ else ⌊x⌋ + 1

/-- `round(x, 2)`. -/
def round2 (x : ℚ) : ℚ := (roundHalfEven (x * 100) : ℚ) / 100

/-- `round(x, 4)`. -/
def round4 (x : ℚ) : ℚ := (roundHalfEven (x * 10000) : ℚ) / 10000

/-- `round(x, 6)`. -/
def round6 (x : ℚ) : ℚ := (roundHalfEven (x * 1000000) : ℚ) / 1000000

/-- Arithmetic mean of a list of rationals (`statistics.mean`,
`Series.mean`). On the empty list this gives `0/0 = 0`; Python raises
instead, so theorems guard emptiness explicitly where it matters. -/
def meanQ (l : List ℚ) : ℚ := l.sum / l.length

/-- One raw CSV row after column standardisation: the result of
`pd.to_datetime(df['Date'], errors='coerce')` and
`pd.to_numeric(df['Price'], errors='coerce')` on that row. -/
structure RawRow where
  date : Option Date
  price : Option ℚ

/-- One cleaned observation: a valid date and its (positive) price. -/
structure Obs where
  date : Date
  price : ℚ
deriving DecidableEq, Repr

/-- Row order used by `sort_values('Date')`: compare the `Date` column. -/
def rowLe (a b : Date × Option ℚ) : Prop := Date.le a.1 b.1

instance : DecidableRel rowLe := fun a b => by
  unfold rowLe; infer_instance

instance : IsTotal (Date × Option ℚ) rowLe :=
  ⟨fun a b => total_of Date.le a.1 b.1⟩

instance : IsTrans (Date × Option ℚ) rowLe :=
  ⟨fun _ _ _ hab hbc => Trans.trans (r := Date.le) hab hbc⟩

/-- The cleaning stage of `fetch_data_from_website` (source lines
49–53): drop rows whose date failed to parse, sort ascending by date,
drop rows whose price failed to parse, keep only strictly positive
prices. -/
def clean_data (rows : List RawRow) : List Obs :=
  let withDate := rows.filterMap (fun r => r.date.map (fun d => (d, r.price)))
  let sorted := withDate.insertionSort rowLe
  let nonNull := sorted.filter (fun x => x.2.isSome)
  let positive := nonNull.filter (fun x => decide (0 < x.2.getD 0))
  positive.map (fun x => ⟨x.1, x.2.getD 0⟩)

/-- Day of the week of a date by Zeller's congruence
(`0 = Saturday, 1 = Sunday, …, 6 = Friday`), embedding the
`dt.dayofweek` / `dt.day_name()` derivation. -/
def Date.dow (d : Date) : Nat :=
  let m := if d.month < 3 then d.month + 12 else d.month
  let y := if d.month < 3 then d.year - 1 else d.year
  let K := y % 100
  let J := y / 100
  (d.day + (13 * (m + 1)) / 5 + K + K / 4 + J / 4 + 5 * J) % 7

/-- `dt.day_name()` for one date. -/
def dayNameOf (d : Date) : String :=
  match d.dow with
  | 0 => "Saturday"
  | 1 => "Sunday"
  | 2 => "Monday"
  | 3 => "Tuesday"
  | 4 => "Wednesday"
  | 5 => "Thursday"
  | _ => "Friday"

/-- `dt.month_name()` for one date. -/
def monthNameOf (d : Date) : String :=
  match d.month with
  | 1 => "January"
  | 2 => "February"
  | 3 => "March"
  | 4 => "April"
  | 5 => "May"
  | 6 => "June"
  | 7 => "July"
  | 8 => "August"
  | 9 => "September"
  | 10 => "October"
  | 11 => "November"
  | 12 => "December"
  | _ => ""

/-!
### Grouping

`df.groupby(k)` iterates the distinct keys in sorted order (pandas
sorts group keys ascending by default); for string keys the order is
lexicographic.
-/

/-- The distinct values of a string-valued key column, in the sorted
order in which `groupby` presents groups. -/
def groupKeys (df : List Obs) (key : Obs → String) : List String :=
  ((df.map key).dedup).insertionSort (· ≤ ·)

/-- The `Price` entries of the group of `k` (rows with `key = k`, in
row order). -/
def groupPrices (df : List Obs) (key : Obs → String) (k : String) : List ℚ :=
  (df.filter (fun o => key o == k)).map Obs.price

/-- `Series.idxmax`: the index label of the first occurrence of the
maximum value. pandas raises on an empty series; the embedding returns
`""` there and theorems guard emptiness where it matters. -/
def idxmax (l : List (String × ℚ)) : String :=
  match l with
  | [] => ""
  | x :: xs => (xs.foldl (fun best y => if best.2 < y.2 then y else best) x).1

/-!
### Analytics battery
-/

/-- Result of `analyze_basic_stats`. `volatility` involves a square
root and therefore lives in `ℝ`. -/
structure BasicStats where
  average_price : ℚ
  min_price : ℚ
  max_price : ℚ
  volatility : ℝ
  total_records : Nat

/-- Round-half-to-even on a real number (as `roundHalfEven`, for the
real-valued statistics). -/
noncomputable def roundHalfEvenR (x : ℝ) : ℤ :=
  if x - ⌊x⌋ < 1/2 then ⌊x⌋
  else if 1/2 < x - ⌊x⌋ then ⌊x⌋ + 1
  else if 2 ∣ ⌊x⌋ then ⌊x⌋ else ⌊x⌋ + 1

/-- `round(x, 2)` on a real number. -/
noncomputable def round2R (x : ℝ) : ℝ := (roundHalfEvenR (x * 100) : ℝ) / 100

/-- `statistics.stdev`: sample standard deviation. Defined for lists
of length ≥ 2; the caller handles the failure cases. -/
noncomputable def stdevR (l : List ℚ) : ℝ :=
  Real.sqrt (((l.map (fun p => ((p : ℝ) - (meanQ l : ℝ))^2)).sum) / (l.length - 1))

/-- `analyze_basic_stats` (source lines 117–127). Python fails with
`StatisticsError` when `stdev` gets fewer than two data points and with
`ZeroDivisionError` when the mean is zero; both are modelled as
`Except.error`. `min`/`max` of the price list use the list head as the
seed, as Python's `min`/`max` do. -/
noncomputable def analyze_basic_stats (df : List Obs) : Except String BasicStats :=
  let prices := df.map Obs.price
  if prices.length < 2 then
    Except.error "stdev requires at least two data points"
  else if meanQ prices = 0 then
    Except.error "float division by zero"
  else
    Except.ok
      { average_price := round2 (meanQ prices)
        min_price := round2 (prices.foldl min (prices.headI))
        max_price := round2 (prices.foldl max (prices.headI))
        volatility := round2R ((stdevR prices / (meanQ prices : ℝ)) * 100)
        total_records := prices.length }

/-- Result of `analyze_seasonality`. -/
structure SeasonalityResult where
  monthly_mean : List (String × ℚ)
  dow_mean : List (String × ℚ)
  best_month : String
  best_day : String

/-- `analyze_seasonality` (source lines 129–144): group means per
month name and per day name, each rounded to 2 decimals, and the
`idxmax` of each. -/
def analyze_seasonality (df : List Obs) : SeasonalityResult :=
  let monthly_avg := (groupKeys df (fun o => monthNameOf o.date)).map
    (fun k => (k, round2 (meanQ (groupPrices df (fun o => monthNameOf o.date) k))))
  let dow_avg := (groupKeys df (fun o => dayNameOf o.date)).map
    (fun k => (k, round2 (meanQ (groupPrices df (fun o => dayNameOf o.date) k))))
  { monthly_mean := monthly_avg
    dow_mean := dow_avg
    best_month := idxmax monthly_avg
    best_day := idxmax dow_avg }

/-- Per-day entry of `weekly_performance`. -/
structure DayPerf where
  average_price : ℚ
  vs_monthly_avg : ℚ
  is_better_than_monthly : Bool
deriving DecidableEq, Repr

/-- Result of `analyze_weekly_patterns`. -/
structure WeeklyResult where
  best_day : String
  weekly_performance : List (String × DayPerf)
  monthly_baseline : ℚ

/-- `analyze_weekly_patterns` (source lines 177–201):
`groupby('DayName')['Price'].agg(['mean','count']).round(2)`, the
`idxmax` of the rounded means, and the per-day performance against the
overall mean. -/
def analyze_weekly_patterns (df : List Obs) : WeeklyResult :=
  let keys := groupKeys df (fun o => dayNameOf o.date)
  let dow_stats := keys.map (fun k =>
    (k, round2 (meanQ (groupPrices df (fun o => dayNameOf o.date) k)),
      (groupPrices df (fun o => dayNameOf o.date) k).length))
  let best_day := idxmax (dow_stats.map (fun x => (x.1, x.2.1)))
  let overall_avg := meanQ (df.map Obs.price)
  let perf := dow_stats.map (fun x =>
    (x.1,
      { average_price := round2 x.2.1
        vs_monthly_avg := round2 ((x.2.1 - overall_avg) / overall_avg * 100)
        is_better_than_monthly := decide (overall_avg < x.2.1) }))
  { best_day := best_day
    weekly_performance := perf
    monthly_baseline := round2 overall_avg }

/-!
### Trend analysis
-/

/-- The zero-based integer time index `np.arange(n)` as rationals. -/
def timeIndex : Nat → List ℚ
  | 0 => []
  | n + 1 => timeIndex n ++ [(n : ℚ)]

/-- Centred cross sum `Σ (x - x̄)(y - ȳ)` for `x = 0, …, n-1`. -/
def ssxy (prices : List ℚ) : ℚ :=
  let xs := timeIndex prices.length
  let xb := meanQ xs
  let yb := meanQ prices
  ((xs.zip prices).map (fun p => (p.1 - xb) * (p.2 - yb))).sum

/-- Centred square sum `Σ (x - x̄)²` of the time index. -/
def ssxx (prices : List ℚ) : ℚ :=
  let xs := timeIndex prices.length
  let xb := meanQ xs
  (xs.map (fun x => (x - xb)^2)).sum

/-- Centred square sum `Σ (y - ȳ)²` of the prices. -/
def ssyy (prices : List ℚ) : ℚ :=
  let yb := meanQ prices
  (prices.map (fun y => (y - yb)^2)).sum

/-- The OLS slope of `scipy.stats.linregress(x, prices)` with
`x = np.arange(len(prices))`. -/
def linregress_slope (prices : List ℚ) : ℚ := ssxy prices / ssxx prices

/-- `r_value ** 2` of the same regression, computed exactly as
`ssxy² / (ssxx · ssyy)`; for a constant series (`ssyy = 0`) rational
division by zero gives `0`, matching `linregress`'s convention
`r = 0` there. -/
def r_squared (prices : List ℚ) : ℚ :=
  (ssxy prices)^2 / (ssxx prices * ssyy prices)

/-- A JSON-ish scalar: the values of the dict returned by
`analyze_trends`. -/
inductive JVal where
  | num (q : ℚ)
  | str (s : String)
deriving DecidableEq, Repr

/-- `analyze_trends` (source lines 146–159): the returned dict as an
association list, in insertion order. The direction is classified by
the sign of the slope alone. -/
def analyze_trends (df : List Obs) : List (String × JVal) :=
  let prices := df.map Obs.price
  let slope := linregress_slope prices
  let direction :=
    if 0 < slope then "Upward" else if slope < 0 then "Downward" else "Flat"
  [("slope", JVal.num (round6 slope)),
   ("r_squared", JVal.num (round4 (r_squared prices))),
   ("trend_direction", JVal.str direction)]

/-!
### Month-over-month fluctuations
-/

/-- Order on `(year, month)` keys of `dt.to_period('M')`. -/
def ymLe (a b : Nat × Nat) : Prop := a.1 < b.1 ∨ (a.1 = b.1 ∧ a.2 ≤ b.2)

instance : DecidableRel ymLe := fun a b => by
  unfold ymLe; infer_instance

instance : IsTotal (Nat × Nat) ymLe :=
  ⟨fun a b => by unfold ymLe; omega⟩

instance : IsTrans (Nat × Nat) ymLe :=
  ⟨fun a b c hab hbc => by unfold ymLe at *; omega⟩

/-- The distinct `YearMonth` keys of the frame, in the sorted order
used by `groupby('YearMonth')`. -/
def ymKeys (df : List Obs) : List (Nat × Nat) :=
  ((df.map (fun o => (o.date.year, o.date.month))).dedup).insertionSort ymLe

/-- The `Price` entries of one `YearMonth` group. -/
def ymPrices (df : List Obs) (k : Nat × Nat) : List ℚ :=
  (df.filter (fun o => (o.date.year, o.date.month) == k)).map Obs.price

/-- Zero-padded two-digit rendering (month/day of `strftime`,
`str(Period)`). -/
def pad2 (n : Nat) : String := if n < 10 then "0" ++ toString n else toString n

/-- Zero-padded four-digit rendering of a year. -/
def pad4 (n : Nat) : String :=
  if n < 10 then "000" ++ toString n
  else if n < 100 then "00" ++ toString n
  else if n < 1000 then "0" ++ toString n
  else toString n

/-- `str(p)` for a monthly `Period`: `YYYY-MM`. -/
def ymStr (k : Nat × Nat) : String := pad4 k.1 ++ "-" ++ pad2 k.2

/-- `d.strftime('%Y-%m-%d')`. -/
def fmtDate (d : Date) : String :=
  pad4 d.year ++ "-" ++ pad2 d.month ++ "-" ++ pad2 d.day

/-- Result of `analyze_monthly_fluctuations`. `volatility` is the
standard deviation of the percentage-change series, hence real. -/
structure MonthlyFluctResult where
  mom_changes : List ℚ
  mom_dates : List String
  base_price : ℚ
  volatility : ℝ

/-- `analyze_monthly_fluctuations` (source lines 161–175): mean price
per `YearMonth`, successive percentage changes (`pct_change().dropna()`
drops the first month, which has no predecessor), scaled by 100; the
changes are reported rounded to 2 decimals with their month labels, the
mean of the monthly means as `base_price`, and the sample standard
deviation of the (unrounded) change series as `volatility`. -/
noncomputable def analyze_monthly_fluctuations (df : List Obs) : MonthlyFluctResult :=
  let monthly_avg := (ymKeys df).map (fun k => (k, meanQ (ymPrices df k)))
  let mom := (monthly_avg.zip monthly_avg.tail).map
    (fun p => (p.2.1, (p.2.2 - p.1.2) / p.1.2 * 100))
  { mom_changes := mom.map (fun p => round2 p.2)
    mom_dates := mom.map (fun p => ymStr p.1)
    base_price := round2 (meanQ (monthly_avg.map Prod.snd))
    volatility := round2R (stdevR (mom.map Prod.snd)) }

/-!
### Retrieval

`fetch_data_from_website` (source lines 19–72) makes a single
`requests.get` call inside one `try`; any raised error — transport
failure, timeout, or the non-2xx status raised by
`raise_for_status()` — is caught by the single `except`, which returns
`False`. There is no loop, no sleep and no re-issue of the request.
The network environment is modelled as an oracle giving the outcome
each successive attempt would have had; the code only ever consults
attempt `0`. Column detection and standardisation are modelled as
succeeding (the oracle's `ok` payload is already standardised rows).
-/

/-- Outcome the network would produce for one attempt. -/
inductive AttemptOutcome where
  | transportFailure
  | timeout
  | httpStatus (code : Nat)
  | ok (body : List RawRow)

/-- Whether an outcome is a success at the transport/status level. -/
def AttemptOutcome.isOk : AttemptOutcome → Bool
  | .ok _ => true
  | _ => false

/-- Observable behaviour of one run of the retrieval step: the cleaned
frame on success (`None` models `return False`), how many attempts were
issued, and the backoff sleeps performed between attempts. -/
structure FetchTrace where
  result : Option (List Obs)
  attemptsMade : Nat
  backoffs : List Nat
deriving DecidableEq

/-- `fetch_data_from_website`: one attempt; on success the body is
cleaned (lines 49–53) and stored, on any failure the exception handler
returns failure. -/
def fetch_data_from_website (net : Nat → AttemptOutcome) : FetchTrace :=
  match net 0 with
  | .ok body => ⟨some (clean_data body), 1, []⟩
  | _ => ⟨none, 1, []⟩

/-!
### Persistence

`save_results` (source lines 245–328) opens each destination path
directly with mode `'w'` and writes the serialized document into it.
Mode `'w'` truncates the destination on open; a write interrupted after
`k` characters therefore leaves the destination holding a prefix of the
new document. There is no temporary file and no rename. The document
contents are parameters (serialization itself is orthogonal to the
write strategy).
-/

/-- A file system: contents per path. -/
def FS : Type := String → Option String

/-- Direct full write of `content` at `path` (`open(path, 'w')`
followed by a complete write). -/
def writeFileFS (path content : String) (fs : FS) : FS :=
  fun p => if p = path then some content else fs p

/-- The kinds of file-system operations a writer can issue. -/
inductive FsOp where
  | mkdir (path : String)
  | write (path : String)
  | rename (src dst : String)
deriving DecidableEq, Repr

/-- The sequence of file-system operations `save_results` performs, in
order (source lines 247, 275, 279, 324). -/
def save_results_ops : List FsOp :=
  [FsOp.mkdir "docs", FsOp.write "docs/analysis.json",
   FsOp.write "docs/last_updated.json", FsOp.write "docs/index.html"]

/-- Effect of a completed `save_results` run on the file system. -/
def save_results (analysisDoc tsDoc indexDoc : String) (fs : FS) : FS :=
  writeFileFS "docs/index.html" indexDoc
    (writeFileFS "docs/last_updated.json" tsDoc
      (writeFileFS "docs/analysis.json" analysisDoc fs))

/-- Effect of a `save_results` run whose write of the main report
is interrupted after `k` characters: `open('docs/analysis.json', 'w')`
has already truncated the destination, so it now holds the prefix. -/
def save_results_interrupted (analysisDoc : String) (k : Nat) (fs : FS) : FS :=
  writeFileFS "docs/analysis.json" (analysisDoc.take k) fs

/-!
### Report document (`response_data`)
-/

/-- The `raw_data` block of the report. -/
structure ReportRawData where
  dates : List String
  prices : List ℚ

/-- The `metadata.date_range` block. `stop` stands for the JSON key
`end` (a Lean keyword). -/
structure DateRange where
  start : String
  stop : String

/-- The `metadata` block of the report. -/
structure ReportMetadata where
  total_records : Nat
  date_range : DateRange

/-- The parts of `response_data` the persisted-report claims are
about. `status`, `timestamp` and the analytics `results` are carried
verbatim from earlier stages and are orthogonal to these claims. -/
structure Report where
  raw_data : ReportRawData
  metadata : ReportMetadata

/-- `df['Date'].min()`: minimum of the date column. -/
def minDateOf (df : List Obs) : Date :=
  match df with
  | [] => ⟨0, 0, 0⟩
  | x :: xs =>
    xs.foldl (fun acc o => if Date.le acc o.date then acc else o.date) x.date

/-- `df['Date'].max()`: maximum of the date column. -/
def maxDateOf (df : List Obs) : Date :=
  match df with
  | [] => ⟨0, 0, 0⟩
  | x :: xs =>
    xs.foldl (fun acc o => if Date.le acc o.date then o.date else acc) x.date

/-- The `raw_data` and `metadata` blocks built by `save_results`
(source lines 256–268) from the cleaned frame. -/
def response_data (df : List Obs) : Report :=
  { raw_data :=
      { dates := df.map (fun o => fmtDate o.date)
        prices := df.map (fun o => round2 o.price) }
    metadata :=
      { total_records := df.length
        date_range :=
          { start := fmtDate (minDateOf df)
            stop := fmtDate (maxDateOf df) } } }

/-!
### The significance-gated classification rule of the specification
-/

/-- Modelled from the spec: the two-sided significance p-value of the
regression slope, which `scipy.stats.linregress` computes but the
source discards. It is the p-value of the t statistic
`t = r·√(n−2)/√(1−r²)` against a Student t distribution with `n−2`
degrees of freedom. For `n = 4` (2 degrees of freedom) the Student CDF
has the closed form `F(t) = 1/2 + t/(2·√(2+t²))`, giving the two-sided
`p = 1 − |t|/√(2+t²)`; with `t² = 2·r²/(1−r²)` this is the definition
below. -/
noncomputable def pValue_n4 (prices : List ℚ) : ℝ :=
  let r2 : ℝ := (r_squared prices : ℚ)
  let t2 : ℝ := 2 * r2 / (1 - r2)
  1 - Real.sqrt t2 / Real.sqrt (2 + t2)

/-- The classification rule as the specification states it: `Upward`
iff `p < 0.05` and `slope > 0`; `Downward` iff `p < 0.05` and
`slope ≤ 0`; `Flat` otherwise. -/
noncomputable def trendDirectionSpec (slope : ℚ) (p : ℝ) : String :=
  if p < 0.05 ∧ 0 < slope then "Upward"
  else if p < 0.05 then "Downward"
  else "Flat"

/-!
## Helper lemmas
-/

/-- `roundHalfEven` is the identity on integers. -/
theorem roundHalfEven_intCast (z : ℤ) : roundHalfEven (z : ℚ) = z := by
  unfold roundHalfEven
  rw [Int.floor_intCast]
  norm_num

/-- `round2` is the identity on integer-valued rationals. -/
theorem round2_intCast (z : ℤ) : round2 (z : ℚ) = z := by
  unfold round2
  rw [show ((z : ℚ) * 100) = ((z * 100 : ℤ) : ℚ) by push_cast; ring,
    roundHalfEven_intCast]
  push_cast
  field_simp

/-- The cleaned frame is sorted (non-strictly) by date. -/
theorem clean_data_sorted (rows : List RawRow) :
    List.Pairwise (fun a b : Obs => Date.le a.date b.date) (clean_data rows) := by
  unfold clean_data
  rw [List.pairwise_map]
  exact ((List.sorted_insertionSort rowLe _).filter _).filter _

/-- Every price in the cleaned frame is strictly positive. -/
theorem clean_data_pos (rows : List RawRow) :
    ∀ o ∈ clean_data rows, 0 < o.price := by
  unfold clean_data
  intro o ho
  rw [List.mem_map] at ho
  obtain ⟨x, hx, rfl⟩ := ho
  have := List.of_mem_filter hx
  simpa using this

/-!
## C2 — retrieval and retries
-/

/-- C2 counterexample: with a network where attempts 1 and 2 would be
transport failures and attempt 3 would succeed, the code fails after a
single attempt — it does not retry, so the run the claim promises to
succeed fails. -/
theorem C2_counterexample :
    (fetch_data_from_website (fun n =>
        if n = 2 then AttemptOutcome.ok [] else AttemptOutcome.transportFailure)) =
      ⟨none, 1, []⟩ := by
  rfl

/-- C2 (amended): `fetch_data_from_website` performs exactly one
attempt with no backoff delays; the run succeeds iff the first attempt
succeeds at the transport/status level. -/
theorem C2_single_attempt (net : Nat → AttemptOutcome) :
    (fetch_data_from_website net).attemptsMade = 1 ∧
    (fetch_data_from_website net).backoffs = [] ∧
    ((fetch_data_from_website net).result.isSome = true ↔ (net 0).isOk = true) := by
  unfold fetch_data_from_website
  cases h : net 0 <;> simp [AttemptOutcome.isOk]

/-!
## C3 — persistence strategy
-/

/-- C3 counterexample: a report write interrupted after 3 characters
leaves the destination holding a 3-character prefix of the new
document — neither the intact previous report nor a complete new one.
The prior report `"OLDREPORT"` is destroyed. -/
theorem C3_counterexample :
    (save_results_interrupted "NEWREPORT" 3
        (fun p => if p = "docs/analysis.json" then some "OLDREPORT" else none))
        "docs/analysis.json" = some "NEW" ∧
    ("NEW" : String) ≠ "OLDREPORT" ∧ ("NEW" : String) ≠ "NEWREPORT" := by
  refine ⟨rfl, by decide, by decide⟩

/-- C3 (amended): `save_results` writes each document directly to its
destination path — its operation sequence contains no rename — so a
completed run installs the new report, while a write interrupted after
`k` characters leaves the destination holding the `k`-character prefix
of the new document (the previous report is already truncated away). -/
theorem C3_direct_write (analysisDoc tsDoc indexDoc : String) (fs : FS) (k : Nat) :
    (∀ s d, FsOp.rename s d ∉ save_results_ops) ∧
    save_results analysisDoc tsDoc indexDoc fs "docs/analysis.json" = some analysisDoc ∧
    save_results_interrupted analysisDoc k fs "docs/analysis.json" =
      some (analysisDoc.take k) := by
  refine ⟨?_, ?_, rfl⟩
  · intro s d h
    simp [save_results_ops] at h
  · simp [save_results, writeFileFS]

/-- C3 witness: the amended statement at a concrete document, file
system and interruption point. -/
theorem C3_direct_write_witness :
    (∀ s d, FsOp.rename s d ∉ save_results_ops) ∧
    save_results "A" "B" "C" (fun _ => none) "docs/analysis.json" = some "A" ∧
    save_results_interrupted "A" 1 (fun _ => none) "docs/analysis.json" =
      some ("A".take 1) :=
  C3_direct_write "A" "B" "C" (fun _ => none) 1

/-!
## C4 — minimum row count
-/

/-- C4 counterexample: a one-row input (far below any minimum floor
such as the specified 2000) is cleaned without any error: the cleaning
stage has no row-count check and no failure path. -/
theorem C4_counterexample :
    clean_data [⟨some ⟨2024, 1, 5⟩, some 2⟩] = [⟨⟨2024, 1, 5⟩, 2⟩] ∧
    (clean_data [⟨some ⟨2024, 1, 5⟩, some 2⟩]).length < 2000 := by
  constructor
  · rfl
  · decide

/-- C4 (amended): the cleaning stage enforces no minimum row count:
every output size, including every size below the configured floor, is
produced normally (for example from `n` all-valid rows). -/
theorem C4_no_minimum_row_check (n : Nat) :
    ∃ rows : List RawRow, (clean_data rows).length = n := by
  refine ⟨(List.range n).map (fun i => ⟨some ⟨i, 1, 1⟩, some 1⟩), ?_⟩
  simp only [clean_data]
  rw [List.filterMap_map]
  rw [show ((fun r : RawRow => r.date.map (fun d => (d, r.price))) ∘
      (fun i : Nat => (⟨some ⟨i, 1, 1⟩, some 1⟩ : RawRow))) =
      (fun i : Nat => some ((⟨⟨i, 1, 1⟩, some 1⟩ : Date × Option ℚ))) from rfl]
  rw [List.filterMap_eq_map_iff_forall_eq_some.mpr (fun a _ => rfl)]
  rw [List.Sorted.insertionSort_eq]
  · rw [List.filter_map]
    have h1 : List.filter ((fun x : Date × Option ℚ => x.2.isSome) ∘
        fun i : Nat => ((⟨⟨i, 1, 1⟩, some 1⟩ : Date × Option ℚ))) (List.range n) =
        List.range n := List.filter_eq_self.mpr (fun a _ => rfl)
    rw [h1, List.filter_map]
    have h2 : List.filter ((fun x : Date × Option ℚ => decide (0 < x.2.getD 0)) ∘
        fun i : Nat => ((⟨⟨i, 1, 1⟩, some 1⟩ : Date × Option ℚ))) (List.range n) =
        List.range n := List.filter_eq_self.mpr (fun a _ => rfl)
    rw [h2]
    simp
  · rw [List.Sorted, List.pairwise_map]
    exact (List.pairwise_lt_range n).imp (fun h => Or.inl h)

/-!
## C5 — the Trend MetricSet
-/

/-- C5 counterexample: the dict returned by `analyze_trends` has no
p-value entry (under either spelling); only `slope`, `r_squared` and
`trend_direction` are present. -/
theorem C5_counterexample :
    List.lookup "p_value" (analyze_trends [⟨⟨2024, 1, 1⟩, 10⟩, ⟨⟨2024, 1, 2⟩, 20⟩]) = none ∧
    List.lookup "p-value" (analyze_trends [⟨⟨2024, 1, 1⟩, 10⟩, ⟨⟨2024, 1, 2⟩, 20⟩]) = none ∧
    (analyze_trends [⟨⟨2024, 1, 1⟩, 10⟩, ⟨⟨2024, 1, 2⟩, 20⟩]).map Prod.fst =
      ["slope", "r_squared", "trend_direction"] := by
  refine ⟨rfl, rfl, rfl⟩

/-- C5 (amended): for every frame the Trend MetricSet carries the
regression slope rounded to 6 decimals and R² rounded to 4 decimals,
and carries no p-value. -/
theorem C5_trend_metricset (df : List Obs) :
    List.lookup "slope" (analyze_trends df) =
      some (JVal.num (round6 (linregress_slope (df.map Obs.price)))) ∧
    List.lookup "r_squared" (analyze_trends df) =
      some (JVal.num (round4 (r_squared (df.map Obs.price)))) ∧
    List.lookup "p_value" (analyze_trends df) = none := by
  refine ⟨rfl, rfl, rfl⟩

/-!
## C6 — cleaned-series invariants
-/

/-- C6 counterexample: two raw rows with the same date both survive
cleaning, so the cleaned date sequence `[d, d]` is not strictly
ascending (duplicates are not removed). -/
theorem C6_counterexample :
    (clean_data [⟨some ⟨2024, 1, 5⟩, some 2⟩, ⟨some ⟨2024, 1, 5⟩, some 3⟩]).map Obs.date =
      [⟨2024, 1, 5⟩, ⟨2024, 1, 5⟩] ∧
    ¬ List.Chain' (fun a b : Obs => Date.lt a.date b.date)
      (clean_data [⟨some ⟨2024, 1, 5⟩, some 2⟩, ⟨some ⟨2024, 1, 5⟩, some 3⟩]) := by
  refine ⟨rfl, fun hch => ?_⟩
  rw [show clean_data [⟨some ⟨2024, 1, 5⟩, some 2⟩, ⟨some ⟨2024, 1, 5⟩, some 3⟩] =
      [⟨⟨2024, 1, 5⟩, 2⟩, ⟨⟨2024, 1, 5⟩, 3⟩] from rfl, List.chain'_cons] at hch
  exact absurd hch.1 (by decide)

/-- C6 (amended): every cleaned price is strictly positive and the
cleaned dates are non-decreasing (sorted ascending; equal consecutive
dates may remain). -/
theorem C6_clean_invariants (rows : List RawRow) :
    (∀ o ∈ clean_data rows, 0 < o.price) ∧
    List.Pairwise (fun a b : Obs => Date.le a.date b.date) (clean_data rows) :=
  ⟨clean_data_pos rows, clean_data_sorted rows⟩

/-- C6 witness: the invariants evaluated on a concrete one-row input. -/
theorem C6_clean_invariants_witness :
    0 < (Obs.mk ⟨2024, 1, 5⟩ 2).price ∧
    List.Pairwise (fun a b : Obs => Date.le a.date b.date)
      (clean_data [⟨some ⟨2024, 1, 5⟩, some 2⟩]) :=
  ⟨(C6_clean_invariants [⟨some ⟨2024, 1, 5⟩, some 2⟩]).1 _ (by decide),
   (C6_clean_invariants [⟨some ⟨2024, 1, 5⟩, some 2⟩]).2⟩

/-!
## C9 — the two `best_day` computations agree
-/

/-- C9: for every nonempty frame, `analyze_seasonality` and
`analyze_weekly_patterns` report the same `best_day`: both take the
first maximum, over lexically sorted day names, of the per-day mean
rounded to 2 decimals. -/
theorem C9_best_day_agree (df : List Obs) (h : df ≠ []) :
    (analyze_seasonality df).best_day = (analyze_weekly_patterns df).best_day := by
  simp only [analyze_seasonality, analyze_weekly_patterns, List.map_map]
  rfl

/-- C9 witness: the agreement evaluated on a concrete one-row frame. -/
theorem C9_best_day_agree_witness :
    (analyze_seasonality [⟨⟨2024, 1, 5⟩, 7⟩]).best_day =
      (analyze_weekly_patterns [⟨⟨2024, 1, 5⟩, 7⟩]).best_day :=
  C9_best_day_agree _ (by decide)

/-!
## C10 — persisted report invariants
-/

/-- In a list each of whose dates dominates the seed, the running date
minimum stays at the seed. -/
theorem foldl_min_of_le (d : Date) (xs : List Obs)
    (h : ∀ o ∈ xs, Date.le d o.date) :
    xs.foldl (fun acc o => if Date.le acc o.date then acc else o.date) d = d := by
  induction xs with
  | nil => rfl
  | cons y ys ih =>
    rw [List.foldl_cons, if_pos (h y (List.mem_cons_self y ys))]
    exact ih (fun o ho => h o (List.mem_cons_of_mem y ho))

/-- In a date-sorted list dominating the seed, the running date
maximum ends at the last element. -/
theorem foldl_max_of_sorted (xs : List Obs) :
    ∀ d : Date, (∀ o ∈ xs, Date.le d o.date) →
    List.Pairwise (fun a b : Obs => Date.le a.date b.date) xs →
    xs.foldl (fun acc o => if Date.le acc o.date then o.date else acc) d =
      (xs.getLast?).elim d Obs.date := by
  induction xs with
  | nil => intro d _ _; rfl
  | cons y ys ih =>
    intro d hd hs
    rw [List.foldl_cons, if_pos (hd y (List.mem_cons_self y ys))]
    obtain ⟨hy, hys⟩ := List.pairwise_cons.mp hs
    rw [ih y.date hy hys]
    cases ys with
    | nil => rfl
    | cons z zs =>
      rw [List.getLast?_cons_cons,
        List.getLast?_eq_getLast_of_ne_nil (List.cons_ne_nil z zs)]
      rfl

/-- C10: in every persisted report built from a nonempty cleaned
frame, `raw_data.dates` and `raw_data.prices` have the same length,
that length is `metadata.total_records`, and the `date_range` start
and end are the first and last entries of `raw_data.dates`. -/
theorem C10_report_invariants (rows : List RawRow) (h : clean_data rows ≠ []) :
    (response_data (clean_data rows)).raw_data.dates.length =
        (response_data (clean_data rows)).raw_data.prices.length ∧
    (response_data (clean_data rows)).raw_data.dates.length =
        (response_data (clean_data rows)).metadata.total_records ∧
    (response_data (clean_data rows)).raw_data.dates.head? =
        some (response_data (clean_data rows)).metadata.date_range.start ∧
    (response_data (clean_data rows)).raw_data.dates.getLast? =
        some (response_data (clean_data rows)).metadata.date_range.stop := by
  have hsort := clean_data_sorted rows
  obtain ⟨x, xs, hxe⟩ : ∃ x xs, clean_data rows = x :: xs := by
    cases hc : clean_data rows with
    | nil => exact absurd hc h
    | cons a l => exact ⟨a, l, rfl⟩
  rw [hxe] at hsort ⊢
  obtain ⟨hx, hxs⟩ := List.pairwise_cons.mp hsort
  refine ⟨by simp [response_data], by simp [response_data], ?_, ?_⟩
  · simp only [response_data, minDateOf, List.map_cons, List.head?_cons]
    rw [foldl_min_of_le x.date xs hx]
  · simp only [response_data, maxDateOf, List.getLast?_map]
    rw [foldl_max_of_sorted xs x.date hx hxs]
    cases hlast : xs.getLast? with
    | none =>
      have : xs = [] := List.getLast?_eq_none_iff.mp hlast
      subst this
      rfl
    | some w =>
      have hne : xs ≠ [] := by
        intro he; subst he; simp at hlast
      rw [show (x :: xs).getLast? = xs.getLast? by
        cases xs with
        | nil => exact absurd rfl hne
        | cons z zs => exact List.getLast?_cons_cons]
      rw [hlast]
      rfl

/-- C10 witness: the report invariants evaluated on a concrete
two-row input. -/
theorem C10_report_invariants_witness :
    (response_data (clean_data [⟨some ⟨2024, 1, 2⟩, some 5⟩, ⟨some ⟨2024, 1, 3⟩, some 6⟩])).raw_data.dates.length =
        (response_data (clean_data [⟨some ⟨2024, 1, 2⟩, some 5⟩, ⟨some ⟨2024, 1, 3⟩, some 6⟩])).raw_data.prices.length ∧
    (response_data (clean_data [⟨some ⟨2024, 1, 2⟩, some 5⟩, ⟨some ⟨2024, 1, 3⟩, some 6⟩])).raw_data.dates.length =
        (response_data (clean_data [⟨some ⟨2024, 1, 2⟩, some 5⟩, ⟨some ⟨2024, 1, 3⟩, some 6⟩])).metadata.total_records ∧
    (response_data (clean_data [⟨some ⟨2024, 1, 2⟩, some 5⟩, ⟨some ⟨2024, 1, 3⟩, some 6⟩])).raw_data.dates.head? =
        some (response_data (clean_data [⟨some ⟨2024, 1, 2⟩, some 5⟩, ⟨some ⟨2024, 1, 3⟩, some 6⟩])).metadata.date_range.start ∧
    (response_data (clean_data [⟨some ⟨2024, 1, 2⟩, some 5⟩, ⟨some ⟨2024, 1, 3⟩, some 6⟩])).raw_data.dates.getLast? =
        some (response_data (clean_data [⟨some ⟨2024, 1, 2⟩, some 5⟩, ⟨some ⟨2024, 1, 3⟩, some 6⟩])).metadata.date_range.stop :=
  C10_report_invariants _ (by decide)

/-!
## C8 — basic statistics and degenerate input
-/

/-- C8: `analyze_basic_stats` fails explicitly exactly when the series
has fewer than 2 observations (`statistics.stdev` undefined) or zero
mean (division by zero); otherwise it reports the rounded mean, min,
max, observation count, and volatility = (sample standard deviation /
mean) × 100 rounded to 2 decimals. No NaN/Inf value is ever emitted:
the degenerate cases are errors, not values. -/
theorem C8_basic_stats (df : List Obs) :
    ((∃ e, analyze_basic_stats df = Except.error e) ↔
      ((df.map Obs.price).length < 2 ∨ meanQ (df.map Obs.price) = 0)) ∧
    (2 ≤ (df.map Obs.price).length → meanQ (df.map Obs.price) ≠ 0 →
      analyze_basic_stats df = Except.ok
        { average_price := round2 (meanQ (df.map Obs.price))
          min_price := round2 ((df.map Obs.price).foldl min (df.map Obs.price).headI)
          max_price := round2 ((df.map Obs.price).foldl max (df.map Obs.price).headI)
          volatility :=
            round2R ((stdevR (df.map Obs.price) / (meanQ (df.map Obs.price) : ℝ)) * 100)
          total_records := (df.map Obs.price).length }) := by
  simp only [analyze_basic_stats]
  constructor
  · constructor
    · rintro ⟨e, he⟩
      by_cases h1 : (df.map Obs.price).length < 2
      · exact Or.inl h1
      · by_cases h2 : meanQ (df.map Obs.price) = 0
        · exact Or.inr h2
        · rw [if_neg h1, if_neg h2] at he
          exact Except.noConfusion he
    · intro hdeg
      by_cases h1 : (df.map Obs.price).length < 2
      · exact ⟨_, by rw [if_pos h1]⟩
      · have h2 : meanQ (df.map Obs.price) = 0 := hdeg.resolve_left h1
        exact ⟨_, by rw [if_neg h1, if_pos h2]⟩
  · intro hlen hm
    rw [if_neg (by omega), if_neg hm]

/-- C8 witness: the non-degenerate branch evaluated on a concrete
three-row frame. -/
theorem C8_basic_stats_witness :
    analyze_basic_stats [⟨⟨2024, 1, 1⟩, 2⟩, ⟨⟨2024, 1, 2⟩, 4⟩, ⟨⟨2024, 1, 3⟩, 6⟩] =
      Except.ok
        { average_price := round2 (meanQ (([⟨⟨2024, 1, 1⟩, 2⟩, ⟨⟨2024, 1, 2⟩, 4⟩,
            ⟨⟨2024, 1, 3⟩, 6⟩] : List Obs).map Obs.price))
          min_price := round2 ((([⟨⟨2024, 1, 1⟩, 2⟩, ⟨⟨2024, 1, 2⟩, 4⟩,
            ⟨⟨2024, 1, 3⟩, 6⟩] : List Obs).map Obs.price).foldl min
              ((([⟨⟨2024, 1, 1⟩, 2⟩, ⟨⟨2024, 1, 2⟩, 4⟩,
                ⟨⟨2024, 1, 3⟩, 6⟩] : List Obs).map Obs.price).headI))
          max_price := round2 ((([⟨⟨2024, 1, 1⟩, 2⟩, ⟨⟨2024, 1, 2⟩, 4⟩,
            ⟨⟨2024, 1, 3⟩, 6⟩] : List Obs).map Obs.price).foldl max
              ((([⟨⟨2024, 1, 1⟩, 2⟩, ⟨⟨2024, 1, 2⟩, 4⟩,
                ⟨⟨2024, 1, 3⟩, 6⟩] : List Obs).map Obs.price).headI))
          volatility := round2R ((stdevR (([⟨⟨2024, 1, 1⟩, 2⟩, ⟨⟨2024, 1, 2⟩, 4⟩,
            ⟨⟨2024, 1, 3⟩, 6⟩] : List Obs).map Obs.price) /
              (meanQ (([⟨⟨2024, 1, 1⟩, 2⟩, ⟨⟨2024, 1, 2⟩, 4⟩,
                ⟨⟨2024, 1, 3⟩, 6⟩] : List Obs).map Obs.price) : ℝ)) * 100)
          total_records := (([⟨⟨2024, 1, 1⟩, 2⟩, ⟨⟨2024, 1, 2⟩, 4⟩,
            ⟨⟨2024, 1, 3⟩, 6⟩] : List Obs).map Obs.price).length } :=
  (C8_basic_stats [⟨⟨2024, 1, 1⟩, 2⟩, ⟨⟨2024, 1, 2⟩, 4⟩, ⟨⟨2024, 1, 3⟩, 6⟩]).2
    (by decide) (by norm_num [meanQ])

/-!
## C7 — month-over-month fluctuations
-/

/-- C7: the month-over-month series has one entry per month after the
first (the first month has no defined change and is dropped by
`pct_change().dropna()`), and on a frame whose monthly means are
`[100, 110, 99]` it reports changes `[10.0, -10.0]` (2-decimal
rounding) with the two corresponding month labels. -/
theorem C7_monthly_fluctuations :
    (∀ df : List Obs,
      (analyze_monthly_fluctuations df).mom_changes.length = (ymKeys df).length - 1 ∧
      (analyze_monthly_fluctuations df).mom_dates.length = (ymKeys df).length - 1) ∧
    (analyze_monthly_fluctuations
        [⟨⟨2024, 1, 15⟩, 100⟩, ⟨⟨2024, 2, 15⟩, 110⟩, ⟨⟨2024, 3, 15⟩, 99⟩]).mom_changes =
      [10, -10] ∧
    (analyze_monthly_fluctuations
        [⟨⟨2024, 1, 15⟩, 100⟩, ⟨⟨2024, 2, 15⟩, 110⟩, ⟨⟨2024, 3, 15⟩, 99⟩]).mom_dates =
      ["2024-02", "2024-03"] := by
  have hkeys : ymKeys [⟨⟨2024, 1, 15⟩, 100⟩, ⟨⟨2024, 2, 15⟩, 110⟩, ⟨⟨2024, 3, 15⟩, 99⟩] =
      [(2024, 1), (2024, 2), (2024, 3)] := by decide
  have hp1 : ymPrices [⟨⟨2024, 1, 15⟩, 100⟩, ⟨⟨2024, 2, 15⟩, 110⟩, ⟨⟨2024, 3, 15⟩, 99⟩]
      (2024, 1) = [100] := rfl
  have hp2 : ymPrices [⟨⟨2024, 1, 15⟩, 100⟩, ⟨⟨2024, 2, 15⟩, 110⟩, ⟨⟨2024, 3, 15⟩, 99⟩]
      (2024, 2) = [110] := rfl
  have hp3 : ymPrices [⟨⟨2024, 1, 15⟩, 100⟩, ⟨⟨2024, 2, 15⟩, 110⟩, ⟨⟨2024, 3, 15⟩, 99⟩]
      (2024, 3) = [99] := rfl
  have hm1 : meanQ [100] = 100 := by norm_num [meanQ]
  have hm2 : meanQ [110] = 110 := by norm_num [meanQ]
  have hm3 : meanQ [99] = 99 := by norm_num [meanQ]
  refine ⟨fun df => ⟨?_, ?_⟩, ?_, ?_⟩
  · simp only [analyze_monthly_fluctuations, List.length_map, List.length_zip,
      List.length_tail]
    omega
  · simp only [analyze_monthly_fluctuations, List.length_map, List.length_zip,
      List.length_tail]
    omega
  · simp only [analyze_monthly_fluctuations, hkeys, List.map_cons, List.map_nil,
      List.tail_cons, List.zip_cons_cons, List.zip_nil_right, hp1, hp2, hp3,
      hm1, hm2, hm3]
    rw [show ((110 : ℚ) - 100) / 100 * 100 = ((10 : ℤ) : ℚ) by norm_num,
      show ((99 : ℚ) - 110) / 110 * 100 = ((-10 : ℤ) : ℚ) by norm_num,
      round2_intCast, round2_intCast]
    norm_num
  · simp only [analyze_monthly_fluctuations, hkeys, List.map_cons, List.map_nil,
      List.tail_cons, List.zip_cons_cons, List.zip_nil_right, hp1, hp2, hp3,
      hm1, hm2, hm3]
    decide

/-!
## C1 — trend classification
-/

/-- C1 counterexample: on the prices `[1, 3, 1, 3]` the regression
slope is `2/5 > 0` but the fit is far from significant
(`r² = 1/5`, two-sided `p = 1 − 1/√5 ≈ 0.55 ≥ 0.05`), so the
specification's significance-gated rule classifies `Flat`; the code
classifies `Upward` by slope sign alone. -/
theorem C1_counterexample :
    List.lookup "trend_direction"
      (analyze_trends [⟨⟨2024, 1, 1⟩, 1⟩, ⟨⟨2024, 1, 2⟩, 3⟩,
        ⟨⟨2024, 1, 3⟩, 1⟩, ⟨⟨2024, 1, 4⟩, 3⟩]) = some (JVal.str "Upward") ∧
    trendDirectionSpec
      (linregress_slope (([⟨⟨2024, 1, 1⟩, 1⟩, ⟨⟨2024, 1, 2⟩, 3⟩,
        ⟨⟨2024, 1, 3⟩, 1⟩, ⟨⟨2024, 1, 4⟩, 3⟩] : List Obs).map Obs.price))
      (pValue_n4 (([⟨⟨2024, 1, 1⟩, 1⟩, ⟨⟨2024, 1, 2⟩, 3⟩,
        ⟨⟨2024, 1, 3⟩, 1⟩, ⟨⟨2024, 1, 4⟩, 3⟩] : List Obs).map Obs.price)) = "Flat" := by
  have hmap : ([⟨⟨2024, 1, 1⟩, 1⟩, ⟨⟨2024, 1, 2⟩, 3⟩,
      ⟨⟨2024, 1, 3⟩, 1⟩, ⟨⟨2024, 1, 4⟩, 3⟩] : List Obs).map Obs.price =
      [(1 : ℚ), 3, 1, 3] := rfl
  have hsl : linregress_slope [(1 : ℚ), 3, 1, 3] = 2/5 := by
    simp only [linregress_slope, ssxy, ssxx,
      show timeIndex (List.length [(1 : ℚ), 3, 1, 3]) = [(0 : ℚ), 1, 2, 3] from by decide,
      List.zip_cons_cons, List.zip_nil_right, List.map_cons, List.map_nil]
    norm_num [meanQ]
  have hr2 : r_squared [(1 : ℚ), 3, 1, 3] = 1/5 := by
    simp only [r_squared, ssxy, ssxx, ssyy,
      show timeIndex (List.length [(1 : ℚ), 3, 1, 3]) = [(0 : ℚ), 1, 2, 3] from by decide,
      List.zip_cons_cons, List.zip_nil_right, List.map_cons, List.map_nil]
    norm_num [meanQ]
  have hple : Real.sqrt (1/2) / Real.sqrt (5/2) ≤ 1/2 := by
    rw [← Real.sqrt_div (by norm_num : (0:ℝ) ≤ 1/2),
      show (1/2 : ℝ) / (5/2) = 1/5 by norm_num]
    have h5 : Real.sqrt (1/5) ≤ Real.sqrt (1/4) := Real.sqrt_le_sqrt (by norm_num)
    rwa [show (1/4 : ℝ) = (1/2)^2 by norm_num,
      Real.sqrt_sq (by norm_num : (0:ℝ) ≤ 1/2)] at h5
  have hp : ¬ (pValue_n4 [(1 : ℚ), 3, 1, 3] < 0.05) := by
    simp only [pValue_n4, hr2]
    push_cast
    rw [show (2 : ℝ) * (1/5) / (1 - 1/5) = 1/2 by norm_num,
      show (2 : ℝ) + 1/2 = 5/2 by norm_num,
      show (0.05 : ℝ) = 1/20 by norm_num]
    intro hlt
    linarith
  constructor
  · simp only [analyze_trends, hmap, hsl]
    rw [if_pos (by norm_num : (0:ℚ) < 2/5)]
    rfl
  · rw [hmap]
    simp only [trendDirectionSpec]
    rw [if_neg (fun hand => hp hand.1), if_neg hp]

/-- C1 (amended): `analyze_trends` classifies the trend by the sign of
the OLS slope alone, with no statistical-significance gate: `Upward`
iff slope > 0, `Downward` iff slope < 0, `Flat` iff slope = 0. -/
theorem C1_slope_sign_classification (df : List Obs) :
    (List.lookup "trend_direction" (analyze_trends df) = some (JVal.str "Upward") ↔
      0 < linregress_slope (df.map Obs.price)) ∧
    (List.lookup "trend_direction" (analyze_trends df) = some (JVal.str "Downward") ↔
      linregress_slope (df.map Obs.price) < 0) ∧
    (List.lookup "trend_direction" (analyze_trends df) = some (JVal.str "Flat") ↔
      linregress_slope (df.map Obs.price) = 0) := by
  have hev : ∀ s : String, List.lookup "trend_direction"
      [("slope", JVal.num (round6 (linregress_slope (df.map Obs.price)))),
       ("r_squared", JVal.num (round4 (r_squared (df.map Obs.price)))),
       ("trend_direction", JVal.str s)] = some (JVal.str s) := fun s => rfl
  simp only [analyze_trends]
  rcases lt_trichotomy (linregress_slope (df.map Obs.price)) 0 with hlt | heq | hgt
  · rw [if_neg (lt_asymm hlt), if_pos hlt, hev]
    exact ⟨iff_of_false (by decide) (lt_asymm hlt),
      iff_of_true rfl hlt,
      iff_of_false (by decide) (ne_of_lt hlt)⟩
  · rw [if_neg (by rw [heq]; exact lt_irrefl 0),
      if_neg (by rw [heq]; exact lt_irrefl 0), hev]
    exact ⟨iff_of_false (by decide) (by rw [heq]; exact lt_irrefl 0),
      iff_of_false (by decide) (by rw [heq]; exact lt_irrefl 0),
      iff_of_true rfl heq⟩
  · rw [if_pos hgt, hev]
    exact ⟨iff_of_true rfl hgt,
      iff_of_false (by decide) (lt_asymm hgt),
      iff_of_false (by decide) (Ne.symm (ne_of_lt hgt))⟩

end LMECu
